import Mathlib

/-!
Verification of the GP hyperparameter-estimation script `docs/scripts/gauss.f.py`
of the RBF repository.

The script draws noisy observations from a squared-exponential Gaussian
process and estimates the hyperparameters `(b, c)` in two ways: an exhaustive
30 by 30 grid sweep of the log likelihood, and a downhill-simplex search made
positivity-constrained by a log/exp reparameterization (`fmin_pos`).

The embedding below models the script over the real numbers.  The generic
minimizer `scipy.optimize.fmin` is out of scope per the design (a black box),
so it appears as an explicit function argument `fmin`; the likelihood of
`rbf.gauss` is part of the repository but not among the given sources, so it
is modelled from the spec (`gpLikelihood`).
-/

noncomputable section

open Real

/-- Componentwise exponential of a pair, as applied by `np.exp(out)` in
`fmin_pos`. -/
def expPair (p : ℝ × ℝ) : ℝ × ℝ := (Real.exp p.1, Real.exp p.2)

/-- Componentwise logarithm of a pair, as applied by `np.log(x0)` in
`fmin_pos`. -/
def logPair (p : ℝ × ℝ) : ℝ × ℝ := (Real.log p.1, Real.log p.2)

/-- The inner wrapper of `fmin_pos`: `pos_func(x) = func(np.exp(x))`. -/
def pos_func (func : ℝ × ℝ → ℝ) : ℝ × ℝ → ℝ :=
  fun x => func (expPair x)

/-- The script's `fmin_pos`: hand the wrapped objective and the
componentwise log of the starting guess to the black-box minimizer `fmin`,
then exponentiate the returned point componentwise.  The source performs no
validation of `x0`. -/
def fmin_pos (fmin : (ℝ × ℝ → ℝ) → ℝ × ℝ → ℝ × ℝ)
    (func : ℝ × ℝ → ℝ) (x0 : ℝ × ℝ) : ℝ × ℝ :=
  expPair (fmin (pos_func func) (logPair x0))

/-- Modelled from the spec: the log marginal likelihood computed by
`rbf.gauss.gpse((a,b,c)).likelihood(t, d, sigma)`, whose source is not among
the given files.  Following spec section 4.2, with mean vector constant `a`,
covariance `K[i,j] = b * exp(-(t i - t j)^2 / c^2)` and noise matrix
`diag(sigma^2)`:

`logL = -0.5 (d-mu)^T (K+S)^(-1) (d-mu) - 0.5 log det (K+S) - (n/2) log (2 pi)`. -/
def gpLikelihood (a b c : ℝ) (t d sigma : List ℝ) : ℝ :=
  let n := t.length
  let M : Matrix (Fin n) (Fin n) ℝ :=
    fun i j => b * Real.exp (-(t.get i - t.get j) ^ 2 / c ^ 2) +
      if i = j then (sigma.getD i 0) ^ 2 else 0
  let r : Fin n → ℝ := fun i => (d.getD i 0 - a)
  let q : ℝ := ∑ i, ∑ j, r i * (M⁻¹ i j) * r j
  (-(1 / 2) * q - (1 / 2) * Real.log M.det - ((n : ℝ) / 2) * Real.log (2 * Real.pi))

/-- The script's `objective`: build the GP with mean offset `0` and
hyperparameters `(x[0], x[1])` and return the negated log likelihood. -/
def objective (x : ℝ × ℝ) (t d sigma : List ℝ) : ℝ :=
  -(gpLikelihood 0 x.1 x.2 t d sigma)

/-- C1: for every starting guess with both components strictly positive,
`fmin_pos` applied to `objective` hands the black-box minimizer the function
`(beta, gamma) -> -logL(0, exp beta, exp gamma)` together with the starting
point `(log b0, log c0)`, and returns the componentwise exponential of the
point the minimizer returns. -/
theorem fmin_pos_objective_wiring
    (fmin : (ℝ × ℝ → ℝ) → ℝ × ℝ → ℝ × ℝ) (t d sigma : List ℝ)
    (x0 : ℝ × ℝ) (hb : 0 < x0.1) (hc : 0 < x0.2) :
    fmin_pos fmin (fun x => objective x t d sigma) x0 =
      expPair (fmin
        (fun p => -(gpLikelihood 0 (Real.exp p.1) (Real.exp p.2) t d sigma))
        (Real.log x0.1, Real.log x0.2)) := by
  rfl

/-- Witness for C1 at the concrete starting guess `(1, 1)` with the
minimizer that returns its starting point. -/
theorem fmin_pos_objective_wiring_witness :
    (0 : ℝ) < (1 : ℝ) ∧
      fmin_pos (fun _ p => p) (fun x => objective x [] [] []) (1, 1) =
        expPair ((fun (_ : ℝ × ℝ → ℝ) (p : ℝ × ℝ) => p)
          (fun p => -(gpLikelihood 0 (Real.exp p.1) (Real.exp p.2) [] [] []))
          (Real.log (1 : ℝ), Real.log (1 : ℝ))) :=
  ⟨by norm_num,
    fmin_pos_objective_wiring (fun _ p => p) [] [] [] (1, 1)
      (by norm_num) (by norm_num)⟩

/-- C3: the wrapped objective `pos_func` only ever evaluates the underlying
`func` at the componentwise exponential of its argument, which is strictly
positive in both components; so the likelihood is never evaluated at a
non-positive `(b, c)` during the simplex search. -/
theorem pos_func_evaluates_positive (func : ℝ × ℝ → ℝ) (x : ℝ × ℝ) :
    pos_func func x = func (expPair x) ∧
      0 < (expPair x).1 ∧ 0 < (expPair x).2 :=
  ⟨rfl, Real.exp_pos x.1, Real.exp_pos x.2⟩

/-- C10: whatever point the black-box minimizer returns, the pair handed
back by `fmin_pos` is componentwise strictly positive, because the result
always passes through `exp` before being returned. -/
theorem fmin_pos_result_positive
    (fmin : (ℝ × ℝ → ℝ) → ℝ × ℝ → ℝ × ℝ) (func : ℝ × ℝ → ℝ) (x0 : ℝ × ℝ) :
    0 < (fmin_pos fmin func x0).1 ∧ 0 < (fmin_pos fmin func x0).2 :=
  ⟨Real.exp_pos _, Real.exp_pos _⟩

/-- C6: the log/exp reparameterization round-trips on strictly positive
reals, and consequently if the minimizer returns its starting point
`logPair x0` unchanged, `fmin_pos` returns `x0` itself. -/
theorem reparameterization_round_trip :
    (∀ x : ℝ, 0 < x → Real.exp (Real.log x) = x) ∧
      (∀ (fmin : (ℝ × ℝ → ℝ) → ℝ × ℝ → ℝ × ℝ) (func : ℝ × ℝ → ℝ)
        (x0 : ℝ × ℝ),
        fmin (pos_func func) (logPair x0) = logPair x0 →
        0 < x0.1 → 0 < x0.2 → fmin_pos fmin func x0 = x0) := by
  constructor
  · exact fun x hx => Real.exp_log hx
  · intro fmin func x0 hfix hb hc
    unfold fmin_pos
    rw [hfix]
    show (Real.exp (Real.log x0.1), Real.exp (Real.log x0.2)) = x0
    rw [Real.exp_log hb, Real.exp_log hc]

/-- Witness for C6 at `x = 2` and the identity-on-start minimizer with
starting guess `(2, 3)`. -/
theorem reparameterization_round_trip_witness :
    Real.exp (Real.log (2 : ℝ)) = 2 ∧
      fmin_pos (fun _ p => p) (fun _ => 0) (2, 3) = (2, 3) :=
  ⟨reparameterization_round_trip.1 2 (by norm_num),
    reparameterization_round_trip.2 (fun _ p => p) (fun _ => 0) (2, 3) rfl
      (by norm_num) (by norm_num)⟩

end

noncomputable section

/-- State of the grid-search part of the script: the `likelihoods` array
(modelled as a total function on indices, `np.zeros((30,30))` initially)
together with the data arrays `t`, `d`, `sigma` that the loop body reads. -/
structure ScriptState where
  likelihoods : ℕ → ℕ → ℝ
  t : List ℝ
  d : List ℝ
  sigma : List ℝ

/-- One iteration of the nested grid loop: build the GP with hyperparameters
`(0, b_search[i], c_search[j])` and store its log likelihood of `(t, d,
sigma)` into cell `(i, j)`; nothing else in the state is touched. -/
def sweepBody (bs cs : List ℝ) (i j : ℕ) (s : ScriptState) : ScriptState :=
  { s with likelihoods := fun iq jq =>
      if iq = i ∧ jq = j then
        gpLikelihood 0 (bs.getD i 0) (cs.getD j 0) s.t s.d s.sigma
      else s.likelihoods iq jq }

/-- The inner loop over the `c_search` indices `js`, at fixed row `i`. -/
def sweepRow (bs cs : List ℝ) (i : ℕ) : List ℕ → ScriptState → ScriptState
  | [], s => s
  | j :: js, s => sweepRow bs cs i js (sweepBody bs cs i j s)

/-- The outer loop over the `b_search` indices. -/
def sweepRows (bs cs : List ℝ) : List ℕ → ScriptState → ScriptState
  | [], s => s
  | i :: il, s => sweepRows bs cs il (sweepRow bs cs i (List.range cs.length) s)

/-- The whole grid sweep of the script (the nested `for` loops over
`enumerate(b_search)` and `enumerate(c_search)`). -/
def sweep (bs cs : List ℝ) (s : ScriptState) : ScriptState :=
  sweepRows bs cs (List.range bs.length) s

theorem sweepRow_data (bs cs : List ℝ) (i : ℕ) (js : List ℕ) :
    ∀ s : ScriptState, (sweepRow bs cs i js s).t = s.t ∧
      (sweepRow bs cs i js s).d = s.d ∧ (sweepRow bs cs i js s).sigma = s.sigma := by
  induction js with
  | nil => exact fun s => ⟨rfl, rfl, rfl⟩
  | cons j js ih => exact fun s => ih (sweepBody bs cs i j s)

theorem sweepRow_likelihoods (bs cs : List ℝ) (i : ℕ) (js : List ℕ) :
    ∀ (s : ScriptState) (iq jq : ℕ),
      (sweepRow bs cs i js s).likelihoods iq jq =
        if iq = i ∧ jq ∈ js then
          gpLikelihood 0 (bs.getD i 0) (cs.getD jq 0) s.t s.d s.sigma
        else s.likelihoods iq jq := by
  induction js with
  | nil => intro s iq jq; simp [sweepRow]
  | cons j js ih =>
    intro s iq jq
    show (sweepRow bs cs i js (sweepBody bs cs i j s)).likelihoods iq jq = _
    rw [ih]
    simp only [sweepBody, List.mem_cons]
    by_cases hiq : iq = i
    · by_cases hjs : jq ∈ js
      · simp [hiq, hjs]
      · by_cases hjj : jq = j
        · simp [hiq, hjs, hjj]
        · simp [hiq, hjs, hjj]
    · simp [hiq]

theorem sweepRows_likelihoods (bs cs : List ℝ) (il : List ℕ) :
    ∀ (s : ScriptState) (iq jq : ℕ),
      (sweepRows bs cs il s).likelihoods iq jq =
        if iq ∈ il ∧ jq < cs.length then
          gpLikelihood 0 (bs.getD iq 0) (cs.getD jq 0) s.t s.d s.sigma
        else s.likelihoods iq jq := by
  induction il with
  | nil => intro s iq jq; simp [sweepRows]
  | cons i il ih =>
    intro s iq jq
    show (sweepRows bs cs il (sweepRow bs cs i (List.range cs.length) s)).likelihoods iq jq = _
    have hd := sweepRow_data bs cs i (List.range cs.length) s
    rw [ih, sweepRow_likelihoods, hd.1, hd.2.1, hd.2.2]
    simp only [List.mem_cons, List.mem_range]
    by_cases h1 : iq ∈ il
    · by_cases h3 : jq < cs.length
      · simp [h1, h3]
      · simp [h1, h3]
    · by_cases h2 : iq = i
      · by_cases h3 : jq < cs.length
        · simp [h1, h2, h3]
        · simp [h1, h2, h3]
      · simp [h1, h2]

/-- C2: the grid sweep is exhaustive: for every index pair `(i, j)` inside
the grid (in the script, `m = 30` rows and columns), the final value of cell
`(i, j)` is the log likelihood of the observations under the GP with
hyperparameters `(0, b_search[i], c_search[j])` — no cell is skipped and no
early termination occurs. -/
theorem grid_sweep_exhaustive (bs cs : List ℝ) (s0 : ScriptState) (i j : ℕ)
    (hi : i < bs.length) (hj : j < cs.length) :
    (sweep bs cs s0).likelihoods i j =
      gpLikelihood 0 (bs.getD i 0) (cs.getD j 0) s0.t s0.d s0.sigma := by
  unfold sweep
  rw [sweepRows_likelihoods]
  simp [List.mem_range, hi, hj]

/-- Witness for C2 on a concrete 2 by 1 grid, read at cell `(1, 0)`. -/
theorem grid_sweep_exhaustive_witness :
    (1 : ℕ) < [(1 : ℝ), 2].length ∧ (0 : ℕ) < [(3 : ℝ)].length ∧
      (sweep [(1 : ℝ), 2] [(3 : ℝ)]
        ⟨fun _ _ => 0, [], [], []⟩).likelihoods 1 0 =
        gpLikelihood 0 ([(1 : ℝ), 2].getD 1 0) ([(3 : ℝ)].getD 0 0) [] [] [] :=
  ⟨by decide, by decide,
    grid_sweep_exhaustive [(1 : ℝ), 2] [(3 : ℝ)] ⟨fun _ _ => 0, [], [], []⟩
      1 0 (by decide) (by decide)⟩

/-- State-transformer semantics of the script's `objective`: its body only
reads `t`, `d`, `sigma` (it contains no assignment to them), so it returns
the negated likelihood together with the state unchanged. -/
def objectiveRun (x : ℝ × ℝ) (s : ScriptState) : ℝ × ScriptState :=
  (objective x s.t s.d s.sigma, s)

/-- C7: likelihood evaluations are side-effect-free with respect to the
data: `objective` leaves `t`, `d`, `sigma` unchanged, and one iteration of
the grid sweep writes only its own cell `(i, j)`, leaving `t`, `d`, `sigma`
and every other cell unchanged. -/
theorem likelihood_evaluation_frame (x : ℝ × ℝ) (bs cs : List ℝ) (i j : ℕ)
    (s : ScriptState) :
    (objectiveRun x s).2 = s ∧
      ((sweepBody bs cs i j s).t = s.t ∧ (sweepBody bs cs i j s).d = s.d ∧
        (sweepBody bs cs i j s).sigma = s.sigma) ∧
      (sweepBody bs cs i j s).likelihoods i j =
        gpLikelihood 0 (bs.getD i 0) (cs.getD j 0) s.t s.d s.sigma ∧
      ∀ iq jq, ¬(iq = i ∧ jq = j) →
        (sweepBody bs cs i j s).likelihoods iq jq = s.likelihoods iq jq := by
  refine ⟨rfl, ⟨rfl, rfl, rfl⟩, by simp [sweepBody], ?_⟩
  intro iq jq h
  simp [sweepBody, h]

/-- Witness for C7: on a concrete state, the iteration writing cell `(0, 0)`
leaves cell `(5, 5)` untouched. -/
theorem likelihood_evaluation_frame_witness :
    ¬((5 : ℕ) = 0 ∧ (5 : ℕ) = 0) ∧
      (sweepBody [(1 : ℝ)] [(1 : ℝ)] 0 0
        ⟨fun _ _ => 0, [], [], []⟩).likelihoods 5 5 =
        (⟨fun _ _ => 0, [], [], []⟩ : ScriptState).likelihoods 5 5 :=
  ⟨by decide,
    (likelihood_evaluation_frame (1, 1) [(1 : ℝ)] [(1 : ℝ)] 0 0
      ⟨fun _ _ => 0, [], [], []⟩).2.2.2 5 5 (by decide)⟩

end

noncomputable section

/-- Errors named by the spec's error taxonomy (section 7): `domainError` for
invalid hyperparameters, `numericalError` for a non-positive-definite
covariance during likelihood evaluation. -/
inductive GPError where
  | domainError
  | numericalError

/-- Exception-aware rendering of `fmin_pos`: the source performs no check on
`x0` (numpy's `log` returns a value — `nan` or `-inf` with at most a runtime
warning — on any float input), so no exception is ever raised and the call
always returns normally with the exponentiated minimizer output. -/
def fmin_posE (fmin : (ℝ × ℝ → ℝ) → ℝ × ℝ → ℝ × ℝ)
    (func : ℝ × ℝ → ℝ) (x0 : ℝ × ℝ) : Except GPError (ℝ × ℝ) :=
  Except.ok (fmin_pos fmin func x0)

/-- C4 counterexample: at the concrete non-positive starting guess
`(-1, 1)`, `fmin_pos` does not fail with a DomainError — it returns
normally. -/
theorem fmin_pos_nonpositive_guess_counterexample :
    fmin_posE (fun _ p => p) (fun _ => 0) (-1, 1) ≠
      Except.error GPError.domainError := by
  simp [fmin_posE]

/-- C4 amended: `fmin_pos` performs no validation of the starting guess at
all: for every `x0`, including those with a non-positive component, it
raises no DomainError; it applies the componentwise log, runs the minimizer
on the wrapped objective, and returns normally with the componentwise
exponential of the minimizer's result. -/
theorem fmin_pos_no_validation (fmin : (ℝ × ℝ → ℝ) → ℝ × ℝ → ℝ × ℝ)
    (func : ℝ × ℝ → ℝ) (x0 : ℝ × ℝ) :
    fmin_posE fmin func x0 =
      Except.ok (expPair (fmin (pos_func func) (logPair x0))) :=
  rfl

/-- Exception-aware rendering of the inner grid loop at fixed `b`: the loop
body has no handler, so the first failing likelihood evaluation aborts the
loop; on success the list of cell values is returned.  The evaluator `like`
stands for `rbf.gauss.gpse((0, b, c)).likelihood(t, d, sigma)`, which may
raise per spec section 4.2. -/
def rowE (like : ℝ → ℝ → Except GPError ℝ) (b : ℝ) :
    List ℝ → Except GPError (List ℝ)
  | [] => Except.ok []
  | c :: cl =>
    match like b c with
    | Except.error e => Except.error e
    | Except.ok v =>
      match rowE like b cl with
      | Except.error e => Except.error e
      | Except.ok vs => Except.ok (v :: vs)

/-- Exception-aware rendering of the full nested grid loop. -/
def gridE (like : ℝ → ℝ → Except GPError ℝ) :
    List ℝ → List ℝ → Except GPError (List (List ℝ))
  | [], _ => Except.ok []
  | b :: bl, cl =>
    match rowE like b cl with
    | Except.error e => Except.error e
    | Except.ok row =>
      match gridE like bl cl with
      | Except.error e => Except.error e
      | Except.ok rows => Except.ok (row :: rows)

theorem rowE_error (like : ℝ → ℝ → Except GPError ℝ) (b : ℝ) (cl : List ℝ)
    (h : ∃ c ∈ cl, ∃ e, like b c = Except.error e) :
    ∃ eq, rowE like b cl = Except.error eq := by
  induction cl with
  | nil => simp at h
  | cons c cl ih =>
    obtain ⟨c0, hmem, e, he⟩ := h
    rcases List.mem_cons.mp hmem with hc | hc
    · subst hc
      exact ⟨e, by simp [rowE, he]⟩
    · obtain ⟨eq, heq⟩ := ih ⟨c0, hc, e, he⟩
      cases hbc : like b c with
      | error e1 => exact ⟨e1, by simp [rowE, hbc]⟩
      | ok v => exact ⟨eq, by simp [rowE, hbc, heq]⟩

theorem gridE_error (like : ℝ → ℝ → Except GPError ℝ) (bl cl : List ℝ)
    (h : ∃ b ∈ bl, ∃ c ∈ cl, ∃ e, like b c = Except.error e) :
    ∃ eq, gridE like bl cl = Except.error eq := by
  induction bl with
  | nil => simp at h
  | cons b bl ih =>
    obtain ⟨b0, hmem, hrest⟩ := h
    rcases List.mem_cons.mp hmem with hb | hb
    · subst hb
      obtain ⟨eq, heq⟩ := rowE_error like b0 cl hrest
      exact ⟨eq, by simp [gridE, heq]⟩
    · obtain ⟨eq, heq⟩ := ih ⟨b0, hb, hrest⟩
      cases hrow : rowE like b cl with
      | error e1 => exact ⟨e1, by simp [gridE, hrow]⟩
      | ok row => exact ⟨eq, by simp [gridE, hrow, heq]⟩

/-- C5: if any single likelihood evaluation during the grid sweep fails,
the sweep as a whole fails — the failure propagates to the caller instead of
a sentinel value being written into the cell and the sweep continuing. -/
theorem grid_failure_propagates (like : ℝ → ℝ → Except GPError ℝ)
    (bl cl : List ℝ)
    (h : ∃ b ∈ bl, ∃ c ∈ cl, ∃ e, like b c = Except.error e) :
    ∃ eq, gridE like bl cl = Except.error eq :=
  gridE_error like bl cl h

/-- Witness for C5 with an evaluator that fails everywhere, on a 1 by 1
grid. -/
theorem grid_failure_propagates_witness :
    (∃ b ∈ [(1 : ℝ)], ∃ c ∈ [(2 : ℝ)], ∃ e,
      (fun _ _ => (Except.error GPError.numericalError : Except GPError ℝ)) b c
        = Except.error e) ∧
    ∃ eq, gridE (fun _ _ => Except.error GPError.numericalError)
      [(1 : ℝ)] [(2 : ℝ)] = Except.error eq :=
  ⟨⟨1, by simp, 2, by simp, GPError.numericalError, rfl⟩,
    grid_failure_propagates (fun _ _ => Except.error GPError.numericalError)
      [(1 : ℝ)] [(2 : ℝ)]
      ⟨1, by simp, 2, by simp, GPError.numericalError, rfl⟩⟩

/-- The script's evenly spaced sample points: `np.linspace(lo, hi, n)`. -/
def linspace (lo hi : ℝ) (n : ℕ) : List ℝ :=
  (List.range n).map (fun k => lo + (hi - lo) * k / ((n : ℝ) - 1))

/-- The candidate variances of the script: `10**np.linspace(-2, 2, 30)`. -/
def b_search : List ℝ := (linspace (-2) 2 30).map (fun e => Real.rpow 10 e)

/-- The candidate length-scales of the script: `10**np.linspace(-2, 1, 30)`. -/
def c_search : List ℝ := (linspace (-2) 1 30).map (fun e => Real.rpow 10 e)

/-- Outputs of one run of the script that downstream consumers read. -/
structure RunOutput where
  d : List ℝ
  surface : ℕ → ℕ → ℝ
  mle : ℝ × ℝ

/-- One run of the script's pipeline with the data-generation collaborator
(`rbf`-drawn sample plus `np.random.normal` noise, both external to the
given sources) abstracted as a function `draw` of the seed passed to
`np.random.seed`: fixed `t = linspace(-5, 5, 500)`, constant noise `0.5`,
the grid sweep over `b_search` and `c_search` from zeros, and the simplex
estimate started at `(1, 1)`. -/
def runScript (draw : ℕ → List ℝ)
    (fmin : (ℝ × ℝ → ℝ) → ℝ × ℝ → ℝ × ℝ) (seed : ℕ) : RunOutput :=
  let t := linspace (-5) 5 500
  let sigma := List.replicate 500 (0.5 : ℝ)
  let d := draw seed
  let final := sweep b_search c_search ⟨fun _ _ => 0, t, d, sigma⟩
  { d := d, surface := final.likelihoods,
    mle := fmin_pos fmin (fun x => objective x t d sigma) (1, 1) }

/-- C8: the pipeline is deterministic: two evaluations of `objective` on the
same arguments return equal values, and two runs of the script with the same
seed (hence the same drawn observations) produce the same observations, the
same grid surface and the same maximum-likelihood estimate. -/
theorem pipeline_deterministic :
    (∀ (x : ℝ × ℝ) (t d sigma : List ℝ),
      objective x t d sigma = objective x t d sigma) ∧
    (∀ (draw : ℕ → List ℝ) (fmin : (ℝ × ℝ → ℝ) → ℝ × ℝ → ℝ × ℝ)
      (s1 s2 : ℕ), s1 = s2 →
      (runScript draw fmin s1).d = (runScript draw fmin s2).d ∧
      (runScript draw fmin s1).surface = (runScript draw fmin s2).surface ∧
      (runScript draw fmin s1).mle = (runScript draw fmin s2).mle) :=
  ⟨fun _ _ _ _ => rfl,
    fun draw fmin s1 s2 h => by rw [h]; exact ⟨rfl, rfl, rfl⟩⟩

/-- Witness for C8 at the script's seed `3`. -/
theorem pipeline_deterministic_witness :
    objective (1, 1) [] [] [] = objective (1, 1) [] [] [] ∧
      ((runScript (fun _ => []) (fun _ p => p) 3).d =
        (runScript (fun _ => []) (fun _ p => p) 3).d ∧
      (runScript (fun _ => []) (fun _ p => p) 3).surface =
        (runScript (fun _ => []) (fun _ p => p) 3).surface ∧
      (runScript (fun _ => []) (fun _ p => p) 3).mle =
        (runScript (fun _ => []) (fun _ p => p) 3).mle) :=
  ⟨pipeline_deterministic.1 (1, 1) [] [] [],
    pipeline_deterministic.2 (fun _ => []) (fun _ p => p) 3 3 rfl⟩

end
